import Mathlib

/-!
Shallow embedding of `src/transcription.py`: a FastAPI service with two
transcription endpoints (`/transcribe_audio_file` and
`/transcribe_base64_audio`) that store audio bytes in a temporary file,
call the Sarvam AI speech-to-text SDK on that file, and clean the file up.

External effects (the filesystem, the SDK call) are modelled by explicit
environment records: the handler functions are pure and return an
`Outcome` record describing the HTTP result together with the observable
effects (which temporary files were created, which remain on disk after
the handler returns, whether the provider SDK was actually invoked, what
path was handed to the adapter, and what bytes were written).
-/

/-- Byte values are natural numbers below 256. -/
abbrev Byte := Nat

deriving instance DecidableEq for Except

/-- Kinds of exception raised by `base64.b64decode` in Python:
`binascii.Error` (caught specially by the Base64 handler and mapped to a
400) and the plain `ValueError` raised when the argument string is not
pure ASCII (caught by the generic handler and mapped to a 503). -/
inductive B64Error where
  | binasciiError
  | valueError
deriving Repr, DecidableEq

/-- `table_a2b_base64`: the value of a character in the standard Base64
alphabet, or `none` for a character outside the alphabet. -/
def base64CharVal (c : Char) : Option Nat :=
  if 65 ≤ c.toNat ∧ c.toNat ≤ 90 then some (c.toNat - 65)
  else if 97 ≤ c.toNat ∧ c.toNat ≤ 122 then some (c.toNat - 71)
  else if 48 ≤ c.toNat ∧ c.toNat ≤ 57 then some (c.toNat + 4)
  else if c = '+' then some 62
  else if c = '/' then some 63
  else none

/-- CPython `binascii.a2b_base64` with `strict_mode=False` (the mode used
by `base64.b64decode` without `validate=True`): characters outside the
alphabet are silently discarded; a `=` once two data characters of the
current quad are present terminates decoding when enough padding has
accumulated; at end of input a quad position other than 0 is an error
(`binascii.Error`). State: quad position, pending bits, padding count,
reversed output accumulator. -/
def a2bBase64Loop : List Char → Nat → Nat → Nat → List Byte →
    Except B64Error (List Byte)
  | [], quadPos, _, _, out =>
      if quadPos = 0 then .ok out.reverse else .error .binasciiError
  | c :: rest, quadPos, leftchar, pads, out =>
      if c = '=' then
        if 2 ≤ quadPos then
          if 4 ≤ quadPos + (pads + 1) then .ok out.reverse
          else a2bBase64Loop rest quadPos leftchar (pads + 1) out
        else a2bBase64Loop rest quadPos leftchar pads out
      else
        match base64CharVal c with
        | none => a2bBase64Loop rest quadPos leftchar pads out
        | some v =>
          if quadPos = 0 then a2bBase64Loop rest 1 v 0 out
          else if quadPos = 1 then
            a2bBase64Loop rest 2 (v % 16) 0 ((leftchar * 4 + v / 16) :: out)
          else if quadPos = 2 then
            a2bBase64Loop rest 3 (v % 4) 0 ((leftchar * 16 + v / 4) :: out)
          else
            a2bBase64Loop rest 0 0 0 ((leftchar * 64 + v) :: out)

/-- Python `base64.b64decode` applied to a `str` argument: the string is
first encoded as ASCII (a non-ASCII character raises `ValueError`), then
decoded by `binascii.a2b_base64` in non-strict mode. -/
def pythonB64Decode (s : String) : Except B64Error (List Byte) :=
  if s.data.all (fun c => decide (c.toNat ≤ 127)) then
    a2bBase64Loop s.data 0 0 0 []
  else .error .valueError

/-- Index of the last occurrence of `c` in `l`, or `-1` when absent
(mirrors Python `str.rfind`). -/
def lastIndexOf (c : Char) (l : List Char) : Int :=
  (l.foldl (fun p x => (p.1 + 1, if x = c then p.1 else p.2))
    ((0 : Int), (-1 : Int))).2

/-- The extension component of `os.path.splitext` on POSIX (`sep = '/'`,
no altsep, `extsep = '.'`): the suffix from the last dot, provided that
dot lies after the last separator and is preceded (within the basename)
by at least one non-dot character; otherwise the empty string. -/
def splitextExt (p : String) : String :=
  let l := p.data
  let sepIdx := lastIndexOf '/' l
  let dotIdx := lastIndexOf '.' l
  if dotIdx > sepIdx then
    if (List.range l.length).any (fun i =>
        decide (sepIdx < (i : Int)) && decide ((i : Int) < dotIdx) &&
        decide (l.getD i ' ' ≠ '.')) then
      String.mk (l.drop dotIdx.toNat)
    else ""
  else ""

/-- Prefix test on character lists (structurally recursive so that the
kernel evaluates it, unlike `String.startsWith`). -/
def charListStartsWith : List Char → List Char → Bool
  | _, [] => true
  | [], _ :: _ => false
  | c :: cs, d :: ds => c == d && charListStartsWith cs ds

/-- Python `str.startswith`. -/
def strStartsWith (s pre : String) : Bool :=
  charListStartsWith s.data pre.data

/-- Python `str.endswith`. -/
def strEndsWith (s suf : String) : Bool :=
  charListStartsWith s.data.reverse suf.data.reverse

/-- Python truthiness-based `or` on an optional string:
`s or dflt` is `dflt` when `s` is `None` or empty. -/
def pyStrOr (s : Option String) (dflt : String) : String :=
  match s with
  | none => dflt
  | some v => if v = "" then dflt else v

/-- `os.path.join` on POSIX for two components. -/
def posixJoin (a b : String) : String :=
  if strStartsWith b "/" then b
  else if a = "" || strEndsWith a "/" then a ++ b
  else a ++ "/" ++ b

/-- The sentinel returned when neither probed key is present in the
provider response. -/
def transcriptionNotFound : String :=
  "Transcription result not found in API response."

/-- Python `dict.get(k, dflt)` on a string-valued mapping modelled as an
association list with distinct keys. -/
def dictGet (d : List (String × String)) (k : String) (dflt : String) :
    String :=
  match d.lookup k with
  | some v => v
  | none => dflt

/-- Behaviour of the module-level provider state and of the one outbound
SDK call: whether `SARVAM_CLIENT` initialized (is not `None`), whether
`SARVAM_CLIENT.speech_to_text.transcribe` raises, the exception text when
it does, and the response mapping when it succeeds. -/
structure ProviderEnv where
  clientInitialized : Bool
  callFails : Bool
  errorMsg : String
  response : List (String × String)
deriving Repr, DecidableEq

/-- `_call_sarvam_transcription_api(file_path)`: raises (returns
`.error msg`) when the client is `None` or when the SDK call raises;
otherwise extracts the transcript via
`response.get('text', response.get('transcript', sentinel))`.
The second component records whether the SDK call was actually made. -/
def call_sarvam_transcription_api (env : ProviderEnv) (_file_path : String) :
    Except String String × Bool :=
  if env.clientInitialized = false then
    (.error "Sarvam AI Client failed to initialize. Check SDK installation and API Key.",
     false)
  else if env.callFails then
    (.error ("Sarvam AI Transcription failed: " ++ env.errorMsg), true)
  else
    (.ok (dictGet env.response "text"
        (dictGet env.response "transcript" transcriptionNotFound)), true)

/-- Observable result of one handler invocation: HTTP status, the
response fields on success, the error detail otherwise, and the effect
trace (temporary files created, files still on disk when the handler
returns, whether the provider SDK was invoked, the path passed to the
adapter, the bytes written to the temporary file). -/
structure Outcome where
  status : Nat
  respFilename : Option String := none
  transcribedText : Option String := none
  detail : Option String := none
  tempFilesCreated : List String := []
  residualFiles : List String := []
  providerCalled : Bool := false
  providerArg : Option String := none
  writtenContents : Option (List Byte) := none
deriving Repr, DecidableEq

/-- The multipart upload as the handler sees it: declared content type,
original filename (both optional in Starlette), and the body bytes. -/
structure UploadFileReq where
  content_type : Option String
  filename : Option String
  contents : List Byte
deriving Repr, DecidableEq

/-- Environment of one `/transcribe_audio_file` invocation: provider
behaviour, whether `shutil.copyfileobj` raises while streaming the body
into the temporary file, and the unique stem `tempfile.NamedTemporaryFile`
picks (the suffix is appended to it). -/
structure UploadEnv where
  provider : ProviderEnv
  copyFails : Bool
  tempName : String
deriving Repr, DecidableEq

/-- Acceptance test of the upload handler's guard
`not file.content_type or not file.content_type.startswith('audio/')`:
the request is accepted iff the declared content type is present,
non-empty (truthy) and starts with `audio/`. -/
def contentTypeAccepted (ct : Option String) : Bool :=
  match ct with
  | none => false
  | some s => !(s == "") && strStartsWith s "audio/"

/-- The extension the upload handler derives:
`_, ext = os.path.splitext(file.filename or "audio.wav")`. -/
def uploadExt (filename : Option String) : String :=
  splitextExt (pyStrOr filename "audio.wav")

/-- `transcribe_audio_file`: rejects non-audio content types with 400;
creates a named temporary file with the derived suffix; on a copy failure
raises a 500 before `temp_file_path` is assigned and before the
`try/finally` cleanup block is entered, so the created file remains on
disk; otherwise calls the adapter and maps success to a 200 response and
an adapter exception to a 503, deleting the temporary file in `finally`
on both of those paths. -/
def transcribe_audio_file (env : UploadEnv) (file : UploadFileReq) :
    Outcome :=
  if contentTypeAccepted file.content_type then
    let ext := uploadExt file.filename
    let path := env.tempName ++ ext
    if env.copyFails then
      { status := 500,
        detail := some "Failed to save uploaded file temporarily.",
        tempFilesCreated := [path],
        residualFiles := [path] }
    else
      let r := call_sarvam_transcription_api env.provider path
      match r.1 with
      | .ok t =>
          { status := 200,
            respFilename := some (pyStrOr file.filename "audio_file"),
            transcribedText := some t,
            tempFilesCreated := [path],
            residualFiles := [],
            providerCalled := r.2,
            providerArg := some path,
            writtenContents := some file.contents }
      | .error msg =>
          { status := 503,
            detail := some ("Transcription service failed: " ++ msg),
            tempFilesCreated := [path],
            residualFiles := [],
            providerCalled := r.2,
            providerArg := some path,
            writtenContents := some file.contents }
  else
    { status := 400,
      detail := some "Invalid file type. Only audio files are accepted." }

/-- The JSON body of `/transcribe_base64_audio` with its pydantic
defaults. -/
structure Base64AudioRequest where
  audio_data : String
  file_extension : String := ".wav"
  filename : String := "voice_note.wav"
deriving Repr, DecidableEq

/-- Environment of one `/transcribe_base64_audio` invocation: provider
behaviour, whether opening/writing the fixed temporary path raises, and
`tempfile.gettempdir()`. -/
structure Base64Env where
  provider : ProviderEnv
  writeFails : Bool
  tempDir : String
deriving Repr, DecidableEq

/-- `transcribe_base64_audio`: decodes the payload (a `binascii.Error`
becomes a 400, a non-ASCII `ValueError` falls to the generic 503 branch),
writes the bytes to the fixed path `gettempdir()/mic_recording{ext}`,
calls the adapter, and maps the outcome; the `finally` block removes the
temporary file on every path on which it was created. -/
def transcribe_base64_audio (env : Base64Env) (request : Base64AudioRequest) :
    Outcome :=
  match pythonB64Decode request.audio_data with
  | .error .binasciiError =>
      { status := 400,
        detail := some "Invalid Base64 audio data received." }
  | .error .valueError =>
      { status := 503,
        detail := some "Transcription service failed: string argument should contain only ASCII characters" }
  | .ok audio_bytes =>
      let path := posixJoin env.tempDir ("mic_recording" ++ request.file_extension)
      if env.writeFails then
        { status := 503,
          detail := some "Transcription service failed: could not write temporary file" }
      else
        let r := call_sarvam_transcription_api env.provider path
        match r.1 with
        | .ok t =>
            { status := 200,
              respFilename := some request.filename,
              transcribedText := some t,
              tempFilesCreated := [path],
              residualFiles := [],
              providerCalled := r.2,
              providerArg := some path,
              writtenContents := some audio_bytes }
        | .error msg =>
            { status := 503,
              detail := some ("Transcription service failed: " ++ msg),
              tempFilesCreated := [path],
              residualFiles := [],
              providerCalled := r.2,
              providerArg := some path,
              writtenContents := some audio_bytes }

/-- A healthy provider whose response carries the transcript under the
primary key. -/
def helloProvider : ProviderEnv :=
  { clientInitialized := true, callFails := false, errorMsg := "",
    response := [("text", "hello world")] }

/-- A provider whose module-level client failed to initialize
(`SARVAM_CLIENT is None`). -/
def downProvider : ProviderEnv :=
  { clientInitialized := false, callFails := false, errorMsg := "",
    response := [] }

/-- A Base64-endpoint environment with a healthy provider. -/
def sampleB64Env : Base64Env :=
  { provider := helloProvider, writeFails := false, tempDir := "/tmp" }

/-- An upload-endpoint environment with a healthy provider. -/
def sampleUploadEnv : UploadEnv :=
  { provider := helloProvider, copyFails := false, tempName := "/tmp/tmpclip" }

/-- The spec's upload scenario: a 10-byte file `clip.wav` of content type
`audio/wav`. -/
def clipUpload : UploadFileReq :=
  { content_type := some "audio/wav", filename := some "clip.wav",
    contents := [0, 1, 2, 3, 4, 5, 6, 7, 8, 9] }

/-- Strict Base64 validity, following the spec's words ("valid Base64"):
the length is a multiple of four and the string is a run of Base64
alphabet characters followed by at most two `=` padding characters. Used
only to state what "not valid Base64" means in the claim; the code itself
decodes leniently via `pythonB64Decode`. -/
def isStrictBase64 (s : String) : Bool :=
  decide (s.data.length % 4 = 0) &&
  (let body := s.data.takeWhile (fun c => (base64CharVal c).isSome)
   let rest := s.data.drop body.length
   decide (rest = [] ∨ rest = ['='] ∨ rest = ['=', '=']))

/-- The nested two-key probe yields the transcript whenever it sits under
`text`, or under `transcript` with `text` absent. -/
theorem dictGet_probe (resp : List (String × String)) (T : String)
    (h : resp.lookup "text" = some T ∨
      (resp.lookup "text" = none ∧ resp.lookup "transcript" = some T)) :
    dictGet resp "text" (dictGet resp "transcript" transcriptionNotFound) = T := by
  rcases h with h | ⟨h1, h2⟩
  · simp [dictGet, h]
  · simp [dictGet, h1, h2]

/-- With an initialized client and a non-raising SDK call, the adapter
returns the probed transcript and records that the provider was called. -/
theorem adapter_ok (env : ProviderEnv) (p : String)
    (hi : env.clientInitialized = true) (hf : env.callFails = false) :
    call_sarvam_transcription_api env p =
      (.ok (dictGet env.response "text"
        (dictGet env.response "transcript" transcriptionNotFound)), true) := by
  simp [call_sarvam_transcription_api, hi, hf]

/-- C1: the claim that every temporary file created during a request's
handling is deleted before the handler returns on every exit path fails
on the upload handler's storage-failure path: once
`NamedTemporaryFile(delete=False, suffix=ext)` has created the file, a
failure of `shutil.copyfileobj` raises `HTTPException(500)` while
`temp_file_path` is still `None` and before the `try/finally` cleanup
block is entered, so the created temporary file remains on disk after the
handler returns. -/
theorem c1_upload_leaks_temp_file_on_copy_failure :
    (transcribe_audio_file
      { provider := helloProvider, copyFails := true, tempName := "/tmp/tmpw1xyz" }
      { content_type := some "audio/wav", filename := some "clip.wav",
        contents := [1, 2, 3] }).status = 500 ∧
    (transcribe_audio_file
      { provider := helloProvider, copyFails := true, tempName := "/tmp/tmpw1xyz" }
      { content_type := some "audio/wav", filename := some "clip.wav",
        contents := [1, 2, 3] }).residualFiles = ["/tmp/tmpw1xyz.wav"] := by
  decide

/-- C2 counterexample: the payload `"!!!!"` is not valid Base64 (every
character lies outside the Base64 alphabet), yet Python's lenient
`b64decode` discards the invalid characters, decodes it to zero bytes,
and the handler proceeds: the provider is invoked and the response is a
200, not a 400 client error. -/
theorem c2_invalid_base64_reaches_provider :
    isStrictBase64 "!!!!" = false ∧
    (transcribe_base64_audio sampleB64Env
      { audio_data := "!!!!" }).status = 200 ∧
    (transcribe_base64_audio sampleB64Env
      { audio_data := "!!!!" }).providerCalled = true := by
  decide

/-- C2 amended: for every payload on which Python's lenient `b64decode`
raises `binascii.Error`, the Base64 endpoint returns a 400 client error,
the provider is never invoked and no temporary file is created. -/
theorem c2_binascii_error_gives_400 (env : Base64Env)
    (req : Base64AudioRequest)
    (h : pythonB64Decode req.audio_data = .error .binasciiError) :
    (transcribe_base64_audio env req).status = 400 ∧
    (transcribe_base64_audio env req).providerCalled = false ∧
    (transcribe_base64_audio env req).tempFilesCreated = [] := by
  simp [transcribe_base64_audio, h]

/-- C2 witness: the spec's scenario payload `"!!!not-base64!!!"` leaves
nine alphabet characters after discarding, a count congruent to 1 mod 4,
so decoding raises `binascii.Error` and the endpoint returns 400 with the
provider never called. -/
theorem c2_binascii_error_gives_400_witness :
    (transcribe_base64_audio sampleB64Env
      { audio_data := "!!!not-base64!!!" }).status = 400 ∧
    (transcribe_base64_audio sampleB64Env
      { audio_data := "!!!not-base64!!!" }).providerCalled = false ∧
    (transcribe_base64_audio sampleB64Env
      { audio_data := "!!!not-base64!!!" }).tempFilesCreated = [] :=
  c2_binascii_error_gives_400 sampleB64Env
    { audio_data := "!!!not-base64!!!" } (by decide)

/-- C3 counterexample: the uploaded filename `"clip"` supplies no
extension, and the derived suffix is the empty string rather than the
claimed `.wav` default: the stored temporary file's name carries no
`.wav` suffix. -/
theorem c3_extensionless_filename_not_wav :
    uploadExt (some "clip") = "" ∧
    (transcribe_audio_file
      { provider := helloProvider, copyFails := false, tempName := "/tmp/tmpabc" }
      { content_type := some "audio/wav", filename := some "clip",
        contents := [0] }).tempFilesCreated = ["/tmp/tmpabc"] ∧
    strEndsWith "/tmp/tmpabc" ".wav" = false := by
  decide

/-- C3 amended: the stored temporary file's suffix always equals the
extension `os.path.splitext` derives from `filename or "audio.wav"`; that
extension is `.wav` when the filename is absent or empty, while a
non-empty filename without a dot-extension yields an empty suffix. -/
theorem c3_suffix_matches_derived_extension (env : UploadEnv)
    (file : UploadFileReq)
    (hct : contentTypeAccepted file.content_type = true) :
    (transcribe_audio_file env file).tempFilesCreated =
      [env.tempName ++ uploadExt file.filename] ∧
    uploadExt none = ".wav" ∧ uploadExt (some "") = ".wav" := by
  refine ⟨?_, by decide, by decide⟩
  by_cases hcopy : env.copyFails
  · simp [transcribe_audio_file, hct, hcopy]
  · cases hr : (call_sarvam_transcription_api env.provider
        (env.tempName ++ uploadExt file.filename)).1 <;>
      simp [transcribe_audio_file, hct, hcopy, hr]

/-- C3 witness: for the upload `clip.wav` the derived suffix is `.wav`
and the temporary file carries it. -/
theorem c3_suffix_matches_derived_extension_witness :
    (transcribe_audio_file sampleUploadEnv clipUpload).tempFilesCreated =
      ["/tmp/tmpclip.wav"] ∧
    uploadExt none = ".wav" ∧ uploadExt (some "") = ".wav" := by
  exact c3_suffix_matches_derived_extension sampleUploadEnv clipUpload (by decide)

/-- C4: for every provider response mapping the adapter returns the value
under `text` if present, otherwise the value under `transcript` if
present, and otherwise the sentinel string, in each case as a normal
(`.ok`) return, never as a raised error. -/
theorem c4_adapter_key_probing (env : ProviderEnv) (p : String)
    (hi : env.clientInitialized = true) (hf : env.callFails = false) :
    (∀ v, env.response.lookup "text" = some v →
      (call_sarvam_transcription_api env p).1 = .ok v) ∧
    (env.response.lookup "text" = none →
      ∀ v, env.response.lookup "transcript" = some v →
        (call_sarvam_transcription_api env p).1 = .ok v) ∧
    (env.response.lookup "text" = none →
      env.response.lookup "transcript" = none →
        (call_sarvam_transcription_api env p).1 = .ok transcriptionNotFound) := by
  refine ⟨?_, ?_, ?_⟩
  · intro v hv
    simp [call_sarvam_transcription_api, hi, hf, dictGet, hv]
  · intro h1 v h2
    simp [call_sarvam_transcription_api, hi, hf, dictGet, h1, h2]
  · intro h1 h2
    simp [call_sarvam_transcription_api, hi, hf, dictGet, h1, h2]

/-- C4 witness: the three clauses at concrete responses — transcript
under `text`, under `transcript` only, and under neither key. -/
theorem c4_adapter_key_probing_witness :
    (call_sarvam_transcription_api
      { clientInitialized := true, callFails := false, errorMsg := "",
        response := [("text", "T1"), ("transcript", "x")] } "f.wav").1 = .ok "T1" ∧
    (call_sarvam_transcription_api
      { clientInitialized := true, callFails := false, errorMsg := "",
        response := [("transcript", "T2")] } "f.wav").1 = .ok "T2" ∧
    (call_sarvam_transcription_api
      { clientInitialized := true, callFails := false, errorMsg := "",
        response := [] } "f.wav").1 = .ok transcriptionNotFound :=
  ⟨(c4_adapter_key_probing
      { clientInitialized := true, callFails := false, errorMsg := "",
        response := [("text", "T1"), ("transcript", "x")] } "f.wav" rfl rfl).1
      "T1" rfl,
   (c4_adapter_key_probing
      { clientInitialized := true, callFails := false, errorMsg := "",
        response := [("transcript", "T2")] } "f.wav" rfl rfl).2.1 rfl "T2" rfl,
   (c4_adapter_key_probing
      { clientInitialized := true, callFails := false, errorMsg := "",
        response := [] } "f.wav" rfl rfl).2.2 rfl rfl⟩

/-- C5: when the module-level provider client failed to initialize, every
request that reaches the transcription step on either endpoint (audio
content type accepted and the body copy succeeding on the upload
endpoint; decodable payload and a successful write on the Base64
endpoint) gets a 503 service-unavailable response and the provider SDK is
never invoked. -/
theorem c5_uninitialized_client_503 (uenv : UploadEnv) (ureq : UploadFileReq)
    (benv : Base64Env) (breq : Base64AudioRequest)
    (hu : uenv.provider.clientInitialized = false)
    (hb : benv.provider.clientInitialized = false)
    (hct : contentTypeAccepted ureq.content_type = true)
    (hcopy : uenv.copyFails = false)
    (hdec : ∃ bs, pythonB64Decode breq.audio_data = Except.ok bs)
    (hw : benv.writeFails = false) :
    (transcribe_audio_file uenv ureq).status = 503 ∧
    (transcribe_audio_file uenv ureq).providerCalled = false ∧
    (transcribe_base64_audio benv breq).status = 503 ∧
    (transcribe_base64_audio benv breq).providerCalled = false := by
  obtain ⟨bs, hbs⟩ := hdec
  refine ⟨?_, ?_, ?_, ?_⟩ <;>
    simp [transcribe_audio_file, transcribe_base64_audio, hct, hcopy, hbs,
      hw, call_sarvam_transcription_api, hu, hb]

/-- C5 witness: with the client uninitialized, a valid `audio/mpeg` upload
and a decodable Base64 payload both yield 503 without a provider call. -/
theorem c5_uninitialized_client_503_witness :
    (transcribe_audio_file
      { provider := downProvider, copyFails := false, tempName := "/tmp/t1" }
      { content_type := some "audio/mpeg", filename := none,
        contents := [] }).status = 503 ∧
    (transcribe_audio_file
      { provider := downProvider, copyFails := false, tempName := "/tmp/t1" }
      { content_type := some "audio/mpeg", filename := none,
        contents := [] }).providerCalled = false ∧
    (transcribe_base64_audio
      { provider := downProvider, writeFails := false, tempDir := "/tmp" }
      { audio_data := "aGk=" }).status = 503 ∧
    (transcribe_base64_audio
      { provider := downProvider, writeFails := false, tempDir := "/tmp" }
      { audio_data := "aGk=" }).providerCalled = false :=
  c5_uninitialized_client_503 _ _ _ _ rfl rfl (by decide) rfl
    ⟨[104, 105], by decide⟩ rfl

/-- C6: an upload whose declared content type is missing or does not
start with `audio/` is rejected with a 400, with no temporary file
created and no provider call. -/
theorem c6_non_audio_content_type_rejected (env : UploadEnv)
    (file : UploadFileReq)
    (h : ∀ s, file.content_type = some s → strStartsWith s "audio/" = false) :
    (transcribe_audio_file env file).status = 400 ∧
    (transcribe_audio_file env file).tempFilesCreated = [] ∧
    (transcribe_audio_file env file).providerCalled = false := by
  have hacc : contentTypeAccepted file.content_type = false := by
    cases hc : file.content_type with
    | none => rfl
    | some s => simp [contentTypeAccepted, h s hc]
  refine ⟨?_, ?_, ?_⟩ <;> simp [transcribe_audio_file, hacc]

/-- C6 witness: a `text/plain` upload is rejected with 400, no temporary
file and no provider call. -/
theorem c6_non_audio_content_type_rejected_witness :
    (transcribe_audio_file sampleUploadEnv
      { content_type := some "text/plain", filename := some "clip.wav",
        contents := [0] }).status = 400 ∧
    (transcribe_audio_file sampleUploadEnv
      { content_type := some "text/plain", filename := some "clip.wav",
        contents := [0] }).tempFilesCreated = [] ∧
    (transcribe_audio_file sampleUploadEnv
      { content_type := some "text/plain", filename := some "clip.wav",
        contents := [0] }).providerCalled = false :=
  c6_non_audio_content_type_rejected sampleUploadEnv _
    (by intro s hs; cases hs; decide)

/-- C7: when the provider's response carries the transcript string `T`
under a probed key (`text`, or `transcript` with `text` absent), every
valid request on either endpoint gets a 200 whose transcribed text is `T`,
with the upload response echoing the original filename and the Base64
response echoing the request's filename field. -/
theorem c7_roundtrip (uenv : UploadEnv) (ureq : UploadFileReq)
    (benv : Base64Env) (breq : Base64AudioRequest) (T : String)
    (hTu : uenv.provider.response.lookup "text" = some T ∨
      (uenv.provider.response.lookup "text" = none ∧
       uenv.provider.response.lookup "transcript" = some T))
    (hTb : benv.provider.response.lookup "text" = some T ∨
      (benv.provider.response.lookup "text" = none ∧
       benv.provider.response.lookup "transcript" = some T))
    (hiu : uenv.provider.clientInitialized = true)
    (hfu : uenv.provider.callFails = false)
    (hib : benv.provider.clientInitialized = true)
    (hfb : benv.provider.callFails = false)
    (hct : contentTypeAccepted ureq.content_type = true)
    (hcopy : uenv.copyFails = false)
    (hdec : ∃ bs, pythonB64Decode breq.audio_data = Except.ok bs)
    (hw : benv.writeFails = false) :
    (transcribe_audio_file uenv ureq).status = 200 ∧
    (transcribe_audio_file uenv ureq).transcribedText = some T ∧
    (transcribe_audio_file uenv ureq).respFilename =
      some (pyStrOr ureq.filename "audio_file") ∧
    (transcribe_base64_audio benv breq).status = 200 ∧
    (transcribe_base64_audio benv breq).transcribedText = some T ∧
    (transcribe_base64_audio benv breq).respFilename = some breq.filename := by
  obtain ⟨bs, hbs⟩ := hdec
  have hu := dictGet_probe uenv.provider.response T hTu
  have hb := dictGet_probe benv.provider.response T hTb
  refine ⟨?_, ?_, ?_, ?_, ?_, ?_⟩ <;>
    simp [transcribe_audio_file, transcribe_base64_audio, hct, hcopy, hbs,
      hw, adapter_ok _ _ hiu hfu, adapter_ok _ _ hib hfb, hu, hb]

/-- C7 witness: the spec scenario — a 10-byte `clip.wav` upload of
content type `audio/wav` against a provider answering
`[("text", "hello world")]` gives a 200 with filename `clip.wav` and
transcribed text `hello world`; the Base64 endpoint echoes the same
transcript for a decodable payload. -/
theorem c7_roundtrip_witness :
    (transcribe_audio_file sampleUploadEnv clipUpload).status = 200 ∧
    (transcribe_audio_file sampleUploadEnv clipUpload).transcribedText =
      some "hello world" ∧
    (transcribe_audio_file sampleUploadEnv clipUpload).respFilename =
      some "clip.wav" ∧
    (transcribe_base64_audio sampleB64Env
      { audio_data := "aGk=" }).status = 200 ∧
    (transcribe_base64_audio sampleB64Env
      { audio_data := "aGk=" }).transcribedText = some "hello world" ∧
    (transcribe_base64_audio sampleB64Env
      { audio_data := "aGk=" }).respFilename = some "voice_note.wav" :=
  c7_roundtrip sampleUploadEnv clipUpload sampleB64Env
    { audio_data := "aGk=" } "hello world" (Or.inl rfl) (Or.inl rfl)
    rfl rfl rfl rfl (by decide) rfl ⟨[104, 105], by decide⟩ rfl

/-- C8: a successful upload whose file carries no filename (`None` or the
empty string) reports the placeholder `audio_file` as the filename. -/
theorem c8_missing_filename_placeholder (env : UploadEnv)
    (file : UploadFileReq)
    (hct : contentTypeAccepted file.content_type = true)
    (hcopy : env.copyFails = false)
    (hi : env.provider.clientInitialized = true)
    (hf : env.provider.callFails = false)
    (hfn : file.filename = none ∨ file.filename = some "") :
    (transcribe_audio_file env file).status = 200 ∧
    (transcribe_audio_file env file).respFilename = some "audio_file" := by
  have hor : pyStrOr file.filename "audio_file" = "audio_file" := by
    rcases hfn with h | h <;> simp [pyStrOr, h]
  refine ⟨?_, ?_⟩ <;>
    simp [transcribe_audio_file, hct, hcopy, adapter_ok _ _ hi hf, hor]

/-- C8 witness: an `audio/wav` upload with no filename succeeds and
reports `audio_file`. -/
theorem c8_missing_filename_placeholder_witness :
    (transcribe_audio_file sampleUploadEnv
      { content_type := some "audio/wav", filename := none,
        contents := [7] }).status = 200 ∧
    (transcribe_audio_file sampleUploadEnv
      { content_type := some "audio/wav", filename := none,
        contents := [7] }).respFilename = some "audio_file" :=
  c8_missing_filename_placeholder sampleUploadEnv
    { content_type := some "audio/wav", filename := none, contents := [7] }
    (by decide) rfl rfl rfl (Or.inl rfl)

/-- C9: the Base64 endpoint performs no non-emptiness validation: the
empty payload decodes to zero bytes, an empty temporary file is written,
and (with an initialized client) the provider call is still attempted;
the response is never a 400 client error. -/
theorem c9_empty_payload_reaches_provider (env : Base64Env)
    (req : Base64AudioRequest)
    (hdata : req.audio_data = "")
    (hw : env.writeFails = false)
    (hi : env.provider.clientInitialized = true) :
    pythonB64Decode req.audio_data = Except.ok [] ∧
    (transcribe_base64_audio env req).writtenContents = some [] ∧
    (transcribe_base64_audio env req).providerCalled = true ∧
    (transcribe_base64_audio env req).status ≠ 400 := by
  have hd : pythonB64Decode req.audio_data = Except.ok [] := by
    rw [hdata]; decide
  refine ⟨hd, ?_, ?_, ?_⟩ <;>
    by_cases hc : env.provider.callFails <;>
      simp [transcribe_base64_audio, hd, hw, call_sarvam_transcription_api,
        hi, hc]

/-- C9 witness: the empty payload against a healthy provider writes an
empty file, calls the provider and returns a non-400 response. -/
theorem c9_empty_payload_reaches_provider_witness :
    pythonB64Decode "" = Except.ok [] ∧
    (transcribe_base64_audio sampleB64Env
      { audio_data := "" }).writtenContents = some [] ∧
    (transcribe_base64_audio sampleB64Env
      { audio_data := "" }).providerCalled = true ∧
    (transcribe_base64_audio sampleB64Env
      { audio_data := "" }).status ≠ 400 :=
  c9_empty_payload_reaches_provider sampleB64Env { audio_data := "" }
    rfl rfl rfl

/-- C10: in the Base64 handler the request's filename field influences
nothing but the echoed filename: two requests agreeing on payload and
extension produce identical temporary file paths, identical written
contents, identical adapter arguments and provider usage, and identical
statuses, transcripts, details and residual files. -/
theorem c10_filename_noninterference (env : Base64Env)
    (r1 r2 : Base64AudioRequest)
    (hdata : r1.audio_data = r2.audio_data)
    (hext : r1.file_extension = r2.file_extension) :
    (transcribe_base64_audio env r1).tempFilesCreated =
      (transcribe_base64_audio env r2).tempFilesCreated ∧
    (transcribe_base64_audio env r1).writtenContents =
      (transcribe_base64_audio env r2).writtenContents ∧
    (transcribe_base64_audio env r1).providerArg =
      (transcribe_base64_audio env r2).providerArg ∧
    (transcribe_base64_audio env r1).providerCalled =
      (transcribe_base64_audio env r2).providerCalled ∧
    (transcribe_base64_audio env r1).status =
      (transcribe_base64_audio env r2).status ∧
    (transcribe_base64_audio env r1).transcribedText =
      (transcribe_base64_audio env r2).transcribedText ∧
    (transcribe_base64_audio env r1).detail =
      (transcribe_base64_audio env r2).detail ∧
    (transcribe_base64_audio env r1).residualFiles =
      (transcribe_base64_audio env r2).residualFiles := by
  obtain ⟨a1, e1, f1⟩ := r1
  obtain ⟨a2, e2, f2⟩ := r2
  dsimp only at hdata hext
  subst hdata
  subst hext
  cases hd : pythonB64Decode a1 with
  | error err =>
      cases err <;> simp [transcribe_base64_audio, hd]
  | ok bs =>
      by_cases hw : env.writeFails
      · simp [transcribe_base64_audio, hd, hw]
      · by_cases hci : env.provider.clientInitialized <;>
          by_cases hcf : env.provider.callFails <;>
            simp [transcribe_base64_audio, hd, hw,
              call_sarvam_transcription_api, hci, hcf]

/-- C10 witness: two requests sharing payload and extension but with
filenames `a.wav` and `b.wav` agree on every observable except the echoed
filename. -/
theorem c10_filename_noninterference_witness :
    (transcribe_base64_audio sampleB64Env
      { audio_data := "aGk=", file_extension := ".wav", filename := "a.wav" }).tempFilesCreated =
      (transcribe_base64_audio sampleB64Env
        { audio_data := "aGk=", file_extension := ".wav", filename := "b.wav" }).tempFilesCreated ∧
    (transcribe_base64_audio sampleB64Env
      { audio_data := "aGk=", file_extension := ".wav", filename := "a.wav" }).writtenContents =
      (transcribe_base64_audio sampleB64Env
        { audio_data := "aGk=", file_extension := ".wav", filename := "b.wav" }).writtenContents ∧
    (transcribe_base64_audio sampleB64Env
      { audio_data := "aGk=", file_extension := ".wav", filename := "a.wav" }).providerArg =
      (transcribe_base64_audio sampleB64Env
        { audio_data := "aGk=", file_extension := ".wav", filename := "b.wav" }).providerArg ∧
    (transcribe_base64_audio sampleB64Env
      { audio_data := "aGk=", file_extension := ".wav", filename := "a.wav" }).providerCalled =
      (transcribe_base64_audio sampleB64Env
        { audio_data := "aGk=", file_extension := ".wav", filename := "b.wav" }).providerCalled ∧
    (transcribe_base64_audio sampleB64Env
      { audio_data := "aGk=", file_extension := ".wav", filename := "a.wav" }).status =
      (transcribe_base64_audio sampleB64Env
        { audio_data := "aGk=", file_extension := ".wav", filename := "b.wav" }).status ∧
    (transcribe_base64_audio sampleB64Env
      { audio_data := "aGk=", file_extension := ".wav", filename := "a.wav" }).transcribedText =
      (transcribe_base64_audio sampleB64Env
        { audio_data := "aGk=", file_extension := ".wav", filename := "b.wav" }).transcribedText ∧
    (transcribe_base64_audio sampleB64Env
      { audio_data := "aGk=", file_extension := ".wav", filename := "a.wav" }).detail =
      (transcribe_base64_audio sampleB64Env
        { audio_data := "aGk=", file_extension := ".wav", filename := "b.wav" }).detail ∧
    (transcribe_base64_audio sampleB64Env
      { audio_data := "aGk=", file_extension := ".wav", filename := "a.wav" }).residualFiles =
      (transcribe_base64_audio sampleB64Env
        { audio_data := "aGk=", file_extension := ".wav", filename := "b.wav" }).residualFiles :=
  c10_filename_noninterference sampleB64Env
    { audio_data := "aGk=", file_extension := ".wav", filename := "a.wav" }
    { audio_data := "aGk=", file_extension := ".wav", filename := "b.wav" }
    rfl rfl
